import Mathlib

/-!
Verification development for the Garage.ChatService repository
(`src/Garage.ChatService/prompt_loader.py` and `src/Garage.ChatService/main.py`).

The Python code is shallowly embedded:

* YAML values (`yaml.safe_load` output) become the inductive `Yaml`; Python
  dictionaries are association lists with first-match lookup (Python dicts
  have unique keys, and `.items()` iterates in insertion order, so a list of
  pairs is a faithful model).  Python floats carry no arithmetic here, so
  they are modelled as rationals used purely as opaque tags.
* Python exceptions become an `Except PyErr` result; a `try/except` block
  becomes a `match` on that result.
* `yaml.safe_load` itself is third-party library code outside this
  repository, so it is modelled as an abstract argument
  `parse : String → Option Yaml` (`none` standing for a `yaml.YAMLError`);
  the filesystem is an association list from path to file contents, with an
  absent path standing for `FileNotFoundError`.
-/

set_option autoImplicit false

namespace GarageChat

/-- A parsed YAML value, the result type of `yaml.safe_load`. -/
inductive Yaml where
  | null : Yaml
  | bool : Bool → Yaml
  | int : Int → Yaml
  | float : Rat → Yaml
  | str : String → Yaml
  | list : List Yaml → Yaml
  | map : List (String × Yaml) → Yaml

/-- A Python dict with string keys, as produced for the rendered messages. -/
abbrev YDict := List (String × Yaml)

/-- Python dict lookup `d.get(k)` / `d[k]` (first match; Python keys are unique). -/
def dgetOpt (d : YDict) (k : String) : Option Yaml :=
  match d with
  | [] => none
  | (k2, v) :: rest => if k2 = k then some v else dgetOpt rest k

/-- The Python exceptions that the embedded code can raise. -/
inductive PyErr where
  | fileNotFound : PyErr
  | yamlError : PyErr
  | keyError : String → PyErr
  | attributeError : PyErr
  | typeError : PyErr
  | other : String → PyErr
deriving DecidableEq

/-- Fuel-driven core of Python `str.replace`: replace every non-overlapping
occurrence of `pat` in `s` with `rep`, scanning left to right.  The fuel is
instantiated with the length of `s`, which always suffices (every step
consumes at least one character when `pat` is nonempty; the code only ever
uses nonempty patterns of the shape `\x7b\x7bkey\x7d\x7d`). -/
def pyReplaceFuel (pat rep : List Char) : Nat → List Char → List Char
  | 0, s => s
  | _ + 1, [] => []
  | fuel + 1, c :: rest =>
    if !pat.isEmpty && pat.isPrefixOf (c :: rest) then
      rep ++ pyReplaceFuel pat rep fuel ((c :: rest).drop pat.length)
    else
      c :: pyReplaceFuel pat rep fuel rest

/-- Python `s.replace(pat, rep)` on strings (for nonempty `pat`). -/
def pyReplaceStr (s pat rep : String) : String :=
  ⟨pyReplaceFuel pat.data rep.data s.data.length s.data⟩

/-- The literal placeholder token `\x7b\x7bkey\x7d\x7d` built from a variable name,
as in the f-string of `render_messages`. -/
def tokenOf (k : String) : String := "\x7b\x7b" ++ k ++ "\x7d\x7d"

/-- Boolean substring test on character lists (used to state which
placeholders a content string contains). -/
def isSubstr (pat : List Char) : List Char → Bool
  | [] => pat.isEmpty
  | c :: rest => pat.isPrefixOf (c :: rest) || isSubstr pat rest

/-- The path `Path(prompts_dir) / f"{prompt_name}.prompt.yml"` of `load_prompt`. -/
def promptPath (prompts_dir prompt_name : String) : String :=
  prompts_dir ++ "/" ++ prompt_name ++ ".prompt.yml"

/-- Filesystem lookup: `some` contents when the file exists, `none` otherwise. -/
def lookupFs (fs : List (String × String)) (p : String) : Option String :=
  match fs with
  | [] => none
  | (q, c) :: rest => if q = p then some c else lookupFs rest p

/-- `prompt_loader.load_prompt`: open `{prompts_dir}/{prompt_name}.prompt.yml`
(raising `FileNotFoundError` when absent) and return `yaml.safe_load` of its
contents (raising `yaml.YAMLError` when the contents are not valid YAML).
No validation of the parsed value is performed. -/
def load_prompt (fs : List (String × String)) (parse : String → Option Yaml)
    (prompt_name : String) (prompts_dir : String) : Except PyErr Yaml :=
  match lookupFs fs (promptPath prompts_dir prompt_name) with
  | none => .error .fileNotFound
  | some contents =>
    match parse contents with
    | none => .error .yamlError
    | some v => .ok v

/-- The inner loop of `render_messages`:
`for key, value in vars.items(): content = content.replace(...)`.
The first executed iteration calls `.replace` on the current content, which
raises `AttributeError` when that content is not a string; with no
vars, the loop body never runs and the content passes through verbatim. -/
def replaceLoop (vars : List (String × String)) (c : Yaml) : Except PyErr Yaml :=
  match vars with
  | [] => .ok c
  | (k, v) :: rest =>
    match c with
    | .str s => replaceLoop rest (.str (pyReplaceStr s (tokenOf k) v))
    | _ => .error .attributeError

/-- One iteration of the `for msg in prompt.get('messages', [])` body:
`content = msg['content']` (raising `KeyError` when absent, `TypeError` when
`msg` is not a dict), the substitution loop, then
`messages.append(\x7b"role": msg['role'], "content": content\x7d)`
(raising `KeyError` when `role` is absent). -/
def render_one (vars : List (String × String)) (msg : Yaml) : Except PyErr YDict :=
  match msg with
  | .map d =>
    match dgetOpt d "content" with
    | none => .error (.keyError "content")
    | some c0 =>
      match replaceLoop vars c0 with
      | .error e => .error e
      | .ok c1 =>
        match dgetOpt d "role" with
        | none => .error (.keyError "role")
        | some r => .ok [("role", r), ("content", c1)]
  | _ => .error .typeError

/-- The whole `for msg in ...` loop: build the output list in order, the
first raised exception aborting the loop. -/
def renderList (vars : List (String × String)) : List Yaml → Except PyErr (List YDict)
  | [] => .ok []
  | m :: rest =>
    match render_one vars m with
    | .error e => .error e
    | .ok entry =>
      match renderList vars rest with
      | .error e => .error e
      | .ok entries => .ok (entry :: entries)

/-- `prompt_loader.render_messages`: iterate over `prompt.get('messages', [])`.
A non-dict prompt raises `AttributeError` on `.get`; a `messages` value that
is not a list raises `TypeError` when its first element is indexed with
`['content']` (iterating a dict yields string keys and iterating a string
yields one-character strings, so nonempty ones also reach that `TypeError`,
while empty ones produce an empty output). -/
def render_messages (prompt : Yaml) (vars : List (String × String)) :
    Except PyErr (List YDict) :=
  match prompt with
  | .map d =>
    match (dgetOpt d "messages").getD (.list []) with
    | .list msgs => renderList vars msgs
    | .str s => if s.isEmpty then .ok [] else .error .typeError
    | .map d2 => if d2.isEmpty then .ok [] else .error .typeError
    | _ => .error .typeError
  | _ => .error .attributeError

/-- `prompt_loader.get_model_parameters`: `prompt.get('modelParameters', \x7b\x7d)`.
A non-dict prompt raises `AttributeError` on `.get`. -/
def get_model_parameters (prompt : Yaml) : Except PyErr Yaml :=
  match prompt with
  | .map d => .ok ((dgetOpt d "modelParameters").getD (.map []))
  | _ => .error .attributeError

/-- Sequential substitution of all vars into a string: the observable
effect of `replaceLoop` on string content. -/
def substAll (vars : List (String × String)) (s : String) : String :=
  vars.foldl (fun acc kv => pyReplaceStr acc (tokenOf kv.1) kv.2) s

/-- The `role` value of a message dict (dummy `null` outside the well-formed case). -/
def roleOf : Yaml → Yaml
  | .map d => (dgetOpt d "role").getD .null
  | _ => .null

/-- The string content of a message dict (dummy `""` outside the well-formed case). -/
def contentOf : Yaml → String
  | .map d =>
    match dgetOpt d "content" with
    | some (.str s) => s
    | _ => ""
  | _ => ""

/-- A message on which `render_messages` cannot raise: a dict with a `role`
key and string `content`. -/
def isWfMsg : Yaml → Bool
  | .map d =>
    (dgetOpt d "role").isSome &&
      (match dgetOpt d "content" with
       | some (.str _) => true
       | _ => false)
  | _ => false

/-- The `\x7b"role": ..., "content": ...\x7d` dict that `render_messages`
produces for one well-formed message. -/
def renderedEntry (vars : List (String × String)) (m : Yaml) : YDict :=
  [("role", roleOf m), ("content", .str (substAll vars (contentOf m)))]

/-- Modelled from the spec: the expected shape of a prompt document — a
mapping whose `messages` value is an ordered list of mappings each carrying
`role` and string `content`, with an optional `modelParameters` mapping.
(`load_prompt` itself performs no such check; this predicate states the
shape the spec describes.) -/
def hasExpectedShape : Yaml → Bool
  | .map d =>
    (match dgetOpt d "messages" with
     | some (.list msgs) => msgs.all isWfMsg
     | _ => false) &&
      (match dgetOpt d "modelParameters" with
       | none => true
       | some (.map _) => true
       | some _ => false)
  | _ => false

/-- The two mappings bind disjoint sets of variable names. -/
def disjointKeys (v1 v2 : List (String × String)) : Bool :=
  v1.all (fun kv => !(v2.any (fun kv2 => kv2.1 == kv.1)))

/-- No variable name's placeholder token occurs as a substring of a
different name's token. -/
def noTokenCollision (vs : List (String × String)) : Bool :=
  vs.all (fun a => vs.all (fun b =>
    a.1 == b.1 || !(isSubstr (tokenOf a.1).data (tokenOf b.1).data)))

/-- The `ChatRequest` pydantic model of `main.py`. -/
structure ChatRequest where
  message : String
  userId : String
deriving DecidableEq

/-- Pydantic construction of a `ChatRequest` from a request body: the
default `"anonymous"` applies exactly when the `userId` field is absent;
a present value — blank included — is taken as is. -/
def mkChatRequest (message : String) (userId? : Option String) : ChatRequest :=
  { message := message, userId := userId?.getD "anonymous" }

/-- The OpenFeature `EvaluationContext` built in the handler. -/
structure EvalCtx where
  targeting_key : String
  attributes : List (String × String)
deriving DecidableEq

/-- The handler's collaborators, fixed for one request: the two flag
evaluations (an `error` models the call raising), the prompt-file
filesystem, the YAML parser, the completion endpoint, and whether the
telemetry counter was initialized at startup. -/
structure Env where
  flagBool : Except PyErr Bool
  flagStr : Except PyErr String
  fs : List (String × String)
  parse : String → Option Yaml
  completion : List YDict → Yaml → Except PyErr String
  counterInit : Bool

/-- What the `chat` coroutine does with one request: return a
`ChatResponse`, raise an `HTTPException(status, detail)`, or let some other
exception escape to the transport layer. -/
inductive ChatOutcome where
  | ok : (response : String) → (prompt_style : String) → ChatOutcome
  | httpError : (status : Nat) → (detail : String) → ChatOutcome
  | unhandled : PyErr → ChatOutcome
deriving DecidableEq

/-- `true` when the outcome is a deliberate response of the handler,
`false` when an exception escaped it unhandled. -/
def isHandled : ChatOutcome → Bool
  | .unhandled _ => false
  | _ => true

/-- Observable side effects of one `chat` call: the `EvaluationContext`
that was built, the attribute dicts of the counter increments, whether
`load_prompt` was reached, and whether the completion endpoint was called. -/
structure Effects where
  evalCtx : Option EvalCtx
  counterTags : List (List (String × String))
  loadAttempted : Bool
  completionCalled : Bool
deriving DecidableEq

/-- `if chat_request_counter: chat_request_counter.add(1, tag)`. -/
def addTag (counterInit : Bool) (tag : List (String × String)) :
    List (List (String × String)) :=
  if counterInit then [tag] else []

/-- A single-quote character, for building the not-found detail string. -/
def sq : String := String.singleton (Char.ofNat 39)

/-- `model_params.get("temperature", 0.7)`: dict lookup with default, an
`AttributeError` when the extracted parameters are not a dict.  (The float
`0.7` is an opaque tag here, no arithmetic touches it.) -/
def tempOf (params : Yaml) : Except PyErr Yaml :=
  match params with
  | .map d => .ok ((dgetOpt d "temperature").getD (.float (0.7 : Rat)))
  | _ => .error .attributeError

/-- The `/chat` handler of `main.py`.  The two flag evaluations happen
before the `try` block; inside it, `load_prompt`, `render_messages`,
`get_model_parameters`, the temperature lookup and the completion call are
guarded by `except FileNotFoundError` (the not-found 500) and
`except Exception` (the generic 500). -/
def chat (env : Env) (promptsDir : String) (req : ChatRequest) :
    ChatOutcome × Effects :=
  let ctx : EvalCtx := ⟨req.userId, [("userId", req.userId)]⟩
  match env.flagBool with
  | .error e => (.unhandled e, ⟨some ctx, [], false, false⟩)
  | .ok chatbot_enabled =>
    if !chatbot_enabled then
      (.httpError 503 "Chatbot is currently disabled",
       ⟨some ctx, addTag env.counterInit [("status", "disabled"), ("prompt_style", "none")],
        false, false⟩)
    else
      match env.flagStr with
      | .error e => (.unhandled e, ⟨some ctx, [], false, false⟩)
      | .ok prompt_file =>
        match load_prompt env.fs env.parse prompt_file promptsDir with
        | .error e =>
          if e = .fileNotFound then
            (.httpError 500 ("Prompt file " ++ sq ++ prompt_file ++ sq ++ " not found"),
             ⟨some ctx, addTag env.counterInit [("status", "error"), ("prompt_style", prompt_file)],
              true, false⟩)
          else
            (.httpError 500 "Error processing chat request",
             ⟨some ctx, addTag env.counterInit [("status", "error"), ("prompt_style", prompt_file)],
              true, false⟩)
        | .ok prompt =>
          match render_messages prompt [("message", req.message)] with
          | .error _ =>
            (.httpError 500 "Error processing chat request",
             ⟨some ctx, addTag env.counterInit [("status", "error"), ("prompt_style", prompt_file)],
              true, false⟩)
          | .ok messages =>
            match get_model_parameters prompt with
            | .error _ =>
              (.httpError 500 "Error processing chat request",
               ⟨some ctx, addTag env.counterInit [("status", "error"), ("prompt_style", prompt_file)],
                true, false⟩)
            | .ok model_params =>
              match tempOf model_params with
              | .error _ =>
                (.httpError 500 "Error processing chat request",
                 ⟨some ctx, addTag env.counterInit [("status", "error"), ("prompt_style", prompt_file)],
                  true, false⟩)
              | .ok temperature =>
                match env.completion messages temperature with
                | .error _ =>
                  (.httpError 500 "Error processing chat request",
                   ⟨some ctx, addTag env.counterInit [("status", "error"), ("prompt_style", prompt_file)],
                    true, true⟩)
                | .ok answer =>
                  (.ok answer prompt_file,
                   ⟨some ctx, addTag env.counterInit [("status", "success"), ("prompt_style", prompt_file)],
                    true, true⟩)

/-! ### Concrete fixtures used to instantiate the theorems -/

/-- A concrete request body. -/
def reqHi : ChatRequest := ⟨"hi", "u1"⟩

/-- An environment whose enabled-flag evaluation raises. -/
def envFlagBoom : Env :=
  ⟨.error (.other "ConnectionError"), .ok "expert", [], fun _ => none,
   fun _ _ => .ok "ans", true⟩

/-- An environment whose prompt-file flag evaluation raises. -/
def envStrBoom : Env :=
  ⟨.ok true, .error (.other "boom"), [], fun _ => none, fun _ _ => .ok "ans", true⟩

/-- An environment whose enabled flag resolves to `false`. -/
def envDisabled : Env :=
  ⟨.ok false, .ok "expert", [], fun _ => none, fun _ _ => .ok "ans", true⟩

/-- An environment with both flags resolved and no prompt file on disk. -/
def envMissing : Env :=
  ⟨.ok true, .ok "expert", [], fun _ => none, fun _ _ => .ok "ans", true⟩

/-- A one-file filesystem whose file parses to a shapeless YAML document. -/
def fsShape : List (String × String) := [(promptPath "prompts" "expert", "42")]

/-- A parser sending the contents of `fsShape` to the YAML scalar `42`. -/
def parseShape : String → Option Yaml :=
  fun s => if s = "42" then some (.int 42) else none

/-- A prompt document whose single message lacks the `content` key. -/
def docNoContent : Yaml := .map [("messages", .list [.map [("role", .str "user")]])]

/-- An environment whose prompt file loads as `docNoContent`. -/
def envBadMsg : Env :=
  ⟨.ok true, .ok "expert", [(promptPath "prompts" "expert", "doc")],
   fun s => if s = "doc" then some docNoContent else none,
   fun _ _ => .ok "ans", true⟩

/-- A well-formed two-message prompt document with one placeholder. -/
def docTwoMsgs : Yaml :=
  .map [("messages", .list
    [.map [("role", .str "system"), ("content", .str "You are an expert.")],
     .map [("role", .str "user"), ("content", .str "\x7b\x7bmessage\x7d\x7d")]])]

/-! ### Helper lemmas about the renderer -/

theorem replaceLoop_str (vars : List (String × String)) :
    ∀ s : String, replaceLoop vars (.str s) = .ok (.str (substAll vars s)) := by
  induction vars with
  | nil => intro s; rfl
  | cons kv rest ih =>
    intro s
    cases kv with
    | mk k v => simpa [replaceLoop, substAll] using ih (pyReplaceStr s (tokenOf k) v)

theorem substAll_append (v1 v2 : List (String × String)) (s : String) :
    substAll (v1 ++ v2) s = substAll v2 (substAll v1 s) := by
  simp [substAll, List.foldl_append]

theorem pyReplaceFuel_not_substr (pat rep : List Char) :
    ∀ (s : List Char) (fuel : Nat), isSubstr pat s = false →
      pyReplaceFuel pat rep fuel s = s := by
  intro s
  induction s with
  | nil => intro fuel _; cases fuel <;> rfl
  | cons c rest ih =>
    intro fuel h
    simp only [isSubstr, Bool.or_eq_false_iff] at h
    cases fuel with
    | zero => rfl
    | succ n => simp [pyReplaceFuel, h.1, ih n h.2]

theorem pyReplaceStr_id (s pat rep : String) (h : isSubstr pat.data s.data = false) :
    pyReplaceStr s pat rep = s := by
  cases s with
  | mk data => simp [pyReplaceStr, pyReplaceFuel_not_substr pat.data rep.data data _ h]

theorem substAll_id (vars : List (String × String)) (s : String)
    (h : ∀ kv ∈ vars, isSubstr (tokenOf kv.1).data s.data = false) :
    substAll vars s = s := by
  induction vars with
  | nil => rfl
  | cons kv rest ih =>
    have h1 : pyReplaceStr s (tokenOf kv.1) kv.2 = s :=
      pyReplaceStr_id s (tokenOf kv.1) kv.2 (h kv (by simp))
    calc substAll (kv :: rest) s = substAll rest (pyReplaceStr s (tokenOf kv.1) kv.2) := by
          simp [substAll]
      _ = substAll rest s := by rw [h1]
      _ = s := ih (fun x hx => h x (by simp [hx]))

theorem render_one_wf (vars : List (String × String)) (m : Yaml) (h : isWfMsg m = true) :
    render_one vars m = .ok (renderedEntry vars m) := by
  cases m with
  | null => simp [isWfMsg] at h
  | bool b => simp [isWfMsg] at h
  | int n => simp [isWfMsg] at h
  | float q => simp [isWfMsg] at h
  | str s => simp [isWfMsg] at h
  | list xs => simp [isWfMsg] at h
  | map d =>
    simp only [isWfMsg, Bool.and_eq_true] at h
    obtain ⟨hr, hc⟩ := h
    cases hrole : dgetOpt d "role" with
    | none => rw [hrole] at hr; simp at hr
    | some r =>
      cases hcont : dgetOpt d "content" with
      | none => rw [hcont] at hc; simp at hc
      | some cv =>
        rw [hcont] at hc
        cases cv with
        | str s =>
          simp [render_one, hrole, hcont, replaceLoop_str, renderedEntry, roleOf, contentOf]
        | null => simp at hc
        | bool b => simp at hc
        | int n => simp at hc
        | float q => simp at hc
        | list xs => simp at hc
        | map d2 => simp at hc

theorem renderList_wf (vars : List (String × String)) :
    ∀ msgs : List Yaml, msgs.all isWfMsg = true →
      renderList vars msgs = .ok (msgs.map (renderedEntry vars)) := by
  intro msgs
  induction msgs with
  | nil => intro _; rfl
  | cons m rest ih =>
    intro h
    simp only [List.all_cons, Bool.and_eq_true] at h
    simp [renderList, render_one_wf vars m h.1, ih h.2]

theorem replaceLoop_append (v1 v2 : List (String × String)) :
    ∀ (c0 c1 : Yaml), replaceLoop v1 c0 = .ok c1 →
      replaceLoop (v1 ++ v2) c0 = replaceLoop v2 c1 := by
  induction v1 with
  | nil =>
    intro c0 c1 h
    simp only [replaceLoop] at h
    cases h
    rfl
  | cons kv rest ih =>
    intro c0 c1 h
    cases kv with
    | mk k v =>
      cases c0 with
      | str s =>
        simp only [replaceLoop] at h
        simpa [replaceLoop] using ih (.str (pyReplaceStr s (tokenOf k) v)) c1 h
      | null => simp [replaceLoop] at h
      | bool b => simp [replaceLoop] at h
      | int n => simp [replaceLoop] at h
      | float q => simp [replaceLoop] at h
      | list xs => simp [replaceLoop] at h
      | map d => simp [replaceLoop] at h

theorem render_one_entry (v2 : List (String × String)) (r c1 : Yaml) :
    render_one v2 (.map [("role", r), ("content", c1)]) =
      match replaceLoop v2 c1 with
      | .error e => .error e
      | .ok c2 => .ok [("role", r), ("content", c2)] := by
  simp [render_one, dgetOpt]

theorem render_one_comp (v1 v2 : List (String × String)) (m : Yaml) (entry : YDict)
    (h : render_one v1 m = .ok entry) :
    render_one v2 (.map entry) = render_one (v1 ++ v2) m := by
  cases m with
  | null => simp [render_one] at h
  | bool b => simp [render_one] at h
  | int n => simp [render_one] at h
  | float q => simp [render_one] at h
  | str s => simp [render_one] at h
  | list xs => simp [render_one] at h
  | map d =>
    simp only [render_one] at h
    cases hcont : dgetOpt d "content" with
    | none => simp [hcont] at h
    | some c0 =>
      simp only [hcont] at h
      cases hrl : replaceLoop v1 c0 with
      | error e => simp [hrl] at h
      | ok c1 =>
        simp only [hrl] at h
        cases hrole : dgetOpt d "role" with
        | none => simp [hrole] at h
        | some r =>
          simp only [hrole, Except.ok.injEq] at h
          subst h
          rw [render_one_entry]
          simp only [render_one, hcont, hrole]
          rw [replaceLoop_append v1 v2 c0 c1 hrl]

theorem renderList_comp (v1 v2 : List (String × String)) :
    ∀ (msgs : List Yaml) (ms : List YDict), renderList v1 msgs = .ok ms →
      renderList v2 (ms.map Yaml.map) = renderList (v1 ++ v2) msgs := by
  intro msgs
  induction msgs with
  | nil =>
    intro ms h
    simp only [renderList] at h
    cases h
    rfl
  | cons m rest ih =>
    intro ms h
    simp only [renderList] at h
    cases h1 : render_one v1 m with
    | error e => rw [h1] at h; simp at h
    | ok entry =>
      rw [h1] at h
      cases h2 : renderList v1 rest with
      | error e => rw [h2] at h; simp at h
      | ok es =>
        rw [h2] at h
        simp only [Except.ok.injEq] at h
        subst h
        simp only [List.map_cons, renderList]
        rw [render_one_comp v1 v2 m entry h1, ih es h2]

theorem render_one_keys (vars : List (String × String)) (m : Yaml) (entry : YDict)
    (h : render_one vars m = .ok entry) : entry.map Prod.fst = ["role", "content"] := by
  cases m with
  | null => simp [render_one] at h
  | bool b => simp [render_one] at h
  | int n => simp [render_one] at h
  | float q => simp [render_one] at h
  | str s => simp [render_one] at h
  | list xs => simp [render_one] at h
  | map d =>
    simp only [render_one] at h
    cases hcont : dgetOpt d "content" with
    | none => simp [hcont] at h
    | some c0 =>
      simp only [hcont] at h
      cases hrl : replaceLoop vars c0 with
      | error e => simp [hrl] at h
      | ok c1 =>
        simp only [hrl] at h
        cases hrole : dgetOpt d "role" with
        | none => simp [hrole] at h
        | some r =>
          simp only [hrole, Except.ok.injEq] at h
          subst h
          rfl

theorem renderList_keys (vars : List (String × String)) :
    ∀ (msgs : List Yaml) (out : List YDict), renderList vars msgs = .ok out →
      ∀ entry ∈ out, entry.map Prod.fst = ["role", "content"] := by
  intro msgs
  induction msgs with
  | nil =>
    intro out h
    simp only [renderList] at h
    cases h
    simp
  | cons m rest ih =>
    intro out h
    simp only [renderList] at h
    cases h1 : render_one vars m with
    | error e => rw [h1] at h; simp at h
    | ok entry =>
      rw [h1] at h
      cases h2 : renderList vars rest with
      | error e => rw [h2] at h; simp at h
      | ok es =>
        rw [h2] at h
        simp only [Except.ok.injEq] at h
        subst h
        intro e he
        rcases List.mem_cons.mp he with rfl | hmem
        · exact render_one_keys vars m e h1
        · exact ih es h2 e hmem

/-! ### Claim theorems -/

/-- C2: for a prompt document whose `messages` value is a list of
well-formed messages, `render_messages` returns one `role`/`content` pair
per message in document order, the content being the source content with
every variable's placeholder token sequentially replaced by its value and
the role unchanged; an empty `messages` list yields an empty result, and a
string containing no token of any supplied variable comes out verbatim. -/
theorem C2_render_messages_correct (d : YDict) (msgs : List Yaml)
    (vars : List (String × String))
    (hm : dgetOpt d "messages" = some (.list msgs))
    (hwf : msgs.all isWfMsg = true) :
    render_messages (.map d) vars = .ok (msgs.map (renderedEntry vars))
    ∧ (msgs = [] → render_messages (.map d) vars = .ok [])
    ∧ (∀ s : String, (∀ kv ∈ vars, isSubstr (tokenOf kv.1).data s.data = false) →
        substAll vars s = s) := by
  refine ⟨?_, ?_, fun s h => substAll_id vars s h⟩
  · simp [render_messages, hm, renderList_wf vars msgs hwf]
  · intro he
    subst he
    simp [render_messages, hm, renderList]

/-- C2 witness: rendering `docTwoMsgs` with `message := "Hello"` replaces
the placeholder in the second message, keeps the first verbatim and
preserves order and roles; a placeholder with no matching key survives. -/
theorem C2_render_messages_correct_witness :
    render_messages docTwoMsgs [("message", "Hello")]
      = .ok [[("role", Yaml.str "system"), ("content", Yaml.str "You are an expert.")],
             [("role", Yaml.str "user"), ("content", Yaml.str "Hello")]]
    ∧ substAll [("message", "Hello")] "Hi \x7b\x7buser\x7d\x7d" = "Hi \x7b\x7buser\x7d\x7d" := by
  have h := C2_render_messages_correct
    [("messages", .list
      [.map [("role", .str "system"), ("content", .str "You are an expert.")],
       .map [("role", .str "user"), ("content", .str "\x7b\x7bmessage\x7d\x7d")]])]
    [.map [("role", .str "system"), ("content", .str "You are an expert.")],
     .map [("role", .str "user"), ("content", .str "\x7b\x7bmessage\x7d\x7d")]]
    [("message", "Hello")] rfl rfl
  exact ⟨h.1.trans (by rfl), h.2.2 "Hi \x7b\x7buser\x7d\x7d" (by decide)⟩

/-- C8: `get_model_parameters` returns the document's `modelParameters`
value verbatim when the key is present and an empty mapping when absent. -/
theorem C8_get_model_parameters_spec (d : YDict) (v : Yaml) :
    (dgetOpt d "modelParameters" = some v → get_model_parameters (.map d) = .ok v)
    ∧ (dgetOpt d "modelParameters" = none → get_model_parameters (.map d) = .ok (.map [])) := by
  constructor <;> intro h <;> simp [get_model_parameters, h]

/-- C8 witness: on a document with `modelParameters \x7btemperature: 0.2\x7d` the
extractor returns exactly that mapping, and on one without the key it
returns the empty mapping. -/
theorem C8_get_model_parameters_spec_witness :
    get_model_parameters
        (.map [("modelParameters", .map [("temperature", .float (0.2 : Rat))])])
      = .ok (.map [("temperature", .float (0.2 : Rat))])
    ∧ get_model_parameters (.map [("messages", .list [])]) = .ok (.map []) :=
  ⟨(C8_get_model_parameters_spec
      [("modelParameters", .map [("temperature", .float (0.2 : Rat))])]
      (.map [("temperature", .float (0.2 : Rat))])).1 rfl,
   (C8_get_model_parameters_spec [("messages", .list [])] .null).2 rfl⟩

/-- C9: every entry of a successful `render_messages` result carries
exactly the keys `role` and `content`, in that order — any other field of
a source message is dropped. -/
theorem C9_rendered_entries_keys (prompt : Yaml) (vars : List (String × String))
    (out : List YDict) (h : render_messages prompt vars = .ok out) :
    ∀ entry ∈ out, entry.map Prod.fst = ["role", "content"] := by
  cases prompt with
  | null => simp [render_messages] at h
  | bool b => simp [render_messages] at h
  | int n => simp [render_messages] at h
  | float q => simp [render_messages] at h
  | str s => simp [render_messages] at h
  | list xs => simp [render_messages] at h
  | map d =>
    simp only [render_messages] at h
    cases hv : (dgetOpt d "messages").getD (.list []) with
    | list msgs =>
      simp only [hv] at h
      exact renderList_keys vars msgs out h
    | str s =>
      simp only [hv] at h
      cases hs : s.isEmpty with
      | false => rw [hs] at h; simp at h
      | true =>
        rw [hs] at h
        simp at h
        subst h
        intro entry he
        simp at he
    | map d2 =>
      simp only [hv] at h
      cases hs : d2.isEmpty with
      | false => rw [hs] at h; simp at h
      | true =>
        rw [hs] at h
        simp at h
        subst h
        intro entry he
        simp at he
    | null => simp [hv] at h
    | bool b => simp [hv] at h
    | int n => simp [hv] at h
    | float q => simp [hv] at h

/-- C9 witness: a source message carrying an extra `weight` field renders
to an entry with exactly the keys `role` and `content`. -/
theorem C9_rendered_entries_keys_witness :
    List.map Prod.fst [("role", Yaml.str "user"), ("content", Yaml.str "hi")]
      = ["role", "content"] :=
  C9_rendered_entries_keys
    (.map [("messages", .list
      [.map [("role", .str "user"), ("content", .str "hi"), ("weight", .int 1)]])])
    [] [[("role", Yaml.str "user"), ("content", Yaml.str "hi")]] (by rfl)
    [("role", Yaml.str "user"), ("content", Yaml.str "hi")] (by simp)

/-- C3 counterexample: a prompt file whose contents parse to the YAML
scalar `42` — a value without the expected document shape — is loaded
successfully, so `load_prompt` does not fail with a parse error on a
shapeless document, contrary to the claim. -/
theorem C3_counterexample :
    load_prompt fsShape parseShape "expert" "prompts" = .ok (.int 42)
    ∧ hasExpectedShape (.int 42) = false :=
  ⟨rfl, rfl⟩

/-- C3 amended: `load_prompt` fails with the not-found error exactly when
no file `{name}.prompt.yml` exists under the directory, fails with a parse
error exactly when the file exists but its contents are not valid YAML,
and otherwise returns the parsed value verbatim — the document's shape is
never validated at load time. -/
theorem C3_load_prompt_errors (fs : List (String × String))
    (parse : String → Option Yaml) (name dir : String) :
    (load_prompt fs parse name dir = .error .fileNotFound ↔
      lookupFs fs (promptPath dir name) = none)
    ∧ (∀ c, lookupFs fs (promptPath dir name) = some c →
        (load_prompt fs parse name dir = .error .yamlError ↔ parse c = none))
    ∧ (∀ c v, lookupFs fs (promptPath dir name) = some c → parse c = some v →
        load_prompt fs parse name dir = .ok v) := by
  refine ⟨?_, ?_, ?_⟩
  · cases hfs : lookupFs fs (promptPath dir name) with
    | none => simp [load_prompt, hfs]
    | some c =>
      cases hp : parse c with
      | none => simp [load_prompt, hfs, hp]
      | some v => simp [load_prompt, hfs, hp]
  · intro c hfs
    cases hp : parse c with
    | none => simp [load_prompt, hfs, hp]
    | some v => simp [load_prompt, hfs, hp]
  · intro c v hfs hp
    simp [load_prompt, hfs, hp]

/-- C3 witness: with a concrete filesystem and parser, a missing file
yields the not-found error, unparsable contents yield the parse error, and
parsable contents are returned verbatim. -/
theorem C3_load_prompt_errors_witness :
    load_prompt [] parseShape "expert" "prompts" = .error .fileNotFound
    ∧ load_prompt fsShape (fun _ => none) "expert" "prompts" = .error .yamlError
    ∧ load_prompt fsShape parseShape "expert" "prompts" = .ok (.int 42) :=
  ⟨(C3_load_prompt_errors [] parseShape "expert" "prompts").1.mpr rfl,
   ((C3_load_prompt_errors fsShape (fun _ => none) "expert" "prompts").2.1 "42" rfl).mpr rfl,
   (C3_load_prompt_errors fsShape parseShape "expert" "prompts").2.2 "42" (.int 42) rfl rfl⟩

/-- C10: `render_messages` raises `KeyError` when a message lacks
`content` or `role`, is total on well-formed messages, and the `/chat`
handler converts such a `KeyError` into the generic 500 processing error
with an error-tagged counter increment — not into the not-found detail. -/
theorem C10_render_requires_role_content (vars : List (String × String))
    (dm : YDict) (rest : List Yaml) :
    (dgetOpt dm "content" = none →
      render_messages (.map [("messages", .list (.map dm :: rest))]) vars
        = .error (.keyError "content"))
    ∧ (∀ s, dgetOpt dm "content" = some (.str s) → dgetOpt dm "role" = none →
        render_messages (.map [("messages", .list (.map dm :: rest))]) vars
          = .error (.keyError "role"))
    ∧ (∀ msgs : List Yaml, msgs.all isWfMsg = true →
        render_messages (.map [("messages", .list msgs)]) vars
          = .ok (msgs.map (renderedEntry vars)))
    ∧ (∀ (env : Env) (dir : String) (req : ChatRequest) (pf : String)
        (prompt : Yaml) (k : String),
        env.flagBool = .ok true → env.flagStr = .ok pf → env.counterInit = true →
        load_prompt env.fs env.parse pf dir = .ok prompt →
        render_messages prompt [("message", req.message)] = .error (.keyError k) →
        chat env dir req = (.httpError 500 "Error processing chat request",
          ⟨some ⟨req.userId, [("userId", req.userId)]⟩,
           [[("status", "error"), ("prompt_style", pf)]], true, false⟩)) := by
  refine ⟨?_, ?_, ?_, ?_⟩
  · intro h
    simp [render_messages, dgetOpt, renderList, render_one, h]
  · intro s hc hr
    simp [render_messages, dgetOpt, renderList, render_one, hc, hr, replaceLoop_str]
  · intro msgs h
    simp [render_messages, dgetOpt, renderList_wf vars msgs h]
  · intro env dir req pf prompt k hb hs hcnt hload hrender
    simp [chat, hb, hs, hload, hrender, addTag, hcnt]

/-- C10 witness: a message with only a `role` key makes `render_messages`
raise `KeyError`, one with only string `content` raises `KeyError` for
`role`, a well-formed list renders, and the handler turns the first case
into the generic 500. -/
theorem C10_render_requires_role_content_witness :
    render_messages (.map [("messages", .list [.map [("role", Yaml.str "user")]])]) []
      = .error (.keyError "content")
    ∧ render_messages (.map [("messages", .list [.map [("content", Yaml.str "hi")]])]) []
      = .error (.keyError "role")
    ∧ render_messages (.map [("messages", .list [.map [("role", Yaml.str "user"),
        ("content", Yaml.str "hi")]])]) []
      = .ok [[("role", Yaml.str "user"), ("content", Yaml.str "hi")]]
    ∧ chat envBadMsg "prompts" reqHi = (.httpError 500 "Error processing chat request",
        ⟨some ⟨"u1", [("userId", "u1")]⟩,
         [[("status", "error"), ("prompt_style", "expert")]], true, false⟩) := by
  refine ⟨?_, ?_, ?_, ?_⟩
  · exact (C10_render_requires_role_content [] [("role", Yaml.str "user")] []).1 rfl
  · exact (C10_render_requires_role_content [] [("content", Yaml.str "hi")] []).2.1 "hi" rfl rfl
  · exact ((C10_render_requires_role_content []
      [("role", Yaml.str "user"), ("content", Yaml.str "hi")] []).2.2.1
      [.map [("role", Yaml.str "user"), ("content", Yaml.str "hi")]] rfl).trans (by rfl)
  · exact (C10_render_requires_role_content [] [] []).2.2.2 envBadMsg "prompts" reqHi
      "expert" docNoContent "content" rfl rfl rfl rfl rfl

/-- C4: when the enabled flag resolves to `false` and the counter is
initialized, the handler answers 503 with the disabled message, records
one counter increment tagged `status: disabled`, and neither loads a
prompt nor calls the completion endpoint. -/
theorem C4_disabled_short_circuit (env : Env) (dir : String) (req : ChatRequest)
    (hflag : env.flagBool = .ok false) (hcnt : env.counterInit = true) :
    chat env dir req = (.httpError 503 "Chatbot is currently disabled",
      ⟨some ⟨req.userId, [("userId", req.userId)]⟩,
       [[("status", "disabled"), ("prompt_style", "none")]], false, false⟩) := by
  simp [chat, hflag, addTag, hcnt]

/-- C4 witness: the disabled outcome evaluated on a concrete environment
and request. -/
theorem C4_disabled_short_circuit_witness :
    chat envDisabled "prompts" reqHi = (.httpError 503 "Chatbot is currently disabled",
      ⟨some ⟨"u1", [("userId", "u1")]⟩,
       [[("status", "disabled"), ("prompt_style", "none")]], false, false⟩) :=
  C4_disabled_short_circuit envDisabled "prompts" reqHi rfl rfl

/-- C7: when the resolved template name has no matching file, the handler
answers 500 with a detail built from the requested style alone (no
filesystem path appears in it), records one counter increment tagged
`status: error`, and never calls the completion endpoint. -/
theorem C7_template_not_found (env : Env) (dir : String) (req : ChatRequest)
    (pf : String) (hb : env.flagBool = .ok true) (hs : env.flagStr = .ok pf)
    (hcnt : env.counterInit = true)
    (hmiss : lookupFs env.fs (promptPath dir pf) = none) :
    chat env dir req = (.httpError 500
        ("Prompt file " ++ sq ++ pf ++ sq ++ " not found"),
      ⟨some ⟨req.userId, [("userId", req.userId)]⟩,
       [[("status", "error"), ("prompt_style", pf)]], true, false⟩) := by
  simp [chat, hb, hs, load_prompt, hmiss, addTag, hcnt]

/-- C7 witness: the not-found outcome evaluated on a concrete environment
whose filesystem is empty. -/
theorem C7_template_not_found_witness :
    chat envMissing "prompts" reqHi = (.httpError 500
        ("Prompt file " ++ sq ++ "expert" ++ sq ++ " not found"),
      ⟨some ⟨"u1", [("userId", "u1")]⟩,
       [[("status", "error"), ("prompt_style", "expert")]], true, false⟩) :=
  C7_template_not_found envMissing "prompts" reqHi "expert" rfl rfl rfl rfl

/-- Every `chat` execution records the evaluation context built from the
request's `userId` as targeting key and sole attribute. -/
theorem chat_evalCtx (env : Env) (dir : String) (req : ChatRequest) :
    (chat env dir req).2.evalCtx = some ⟨req.userId, [("userId", req.userId)]⟩ := by
  simp only [chat]
  repeat' split
  all_goals rfl

/-- C6 counterexample: a request carrying the blank `userId` `""` builds
the evaluation context with targeting key `""`, not `"anonymous"`, so the
default does not apply to blank values as the claim states. -/
theorem C6_counterexample :
    (chat envMissing "prompts" (mkChatRequest "hi" (some ""))).2.evalCtx
      = some ⟨"", [("userId", "")]⟩
    ∧ "" ≠ "anonymous" :=
  ⟨rfl, by decide⟩

/-- C6 amended: the evaluation context is built with targeting key equal
to the request's `userId` and attributes `userId`, where `userId` defaults
to `"anonymous"` only when the field is absent from the request body — a
present value, blank included, is used as is. -/
theorem C6_eval_context (env : Env) (dir m : String) (uid? : Option String) :
    (chat env dir (mkChatRequest m uid?)).2.evalCtx
      = some ⟨uid?.getD "anonymous", [("userId", uid?.getD "anonymous")]⟩ :=
  chat_evalCtx env dir (mkChatRequest m uid?)

/-- C1 counterexample: when the enabled-flag evaluation raises, the
exception escapes the handler unhandled instead of being converted to one
of the three error outcomes. -/
theorem C1_counterexample :
    (chat envFlagBoom "prompts" reqHi).1 = .unhandled (.other "ConnectionError")
    ∧ isHandled (chat envFlagBoom "prompts" reqHi).1 = false :=
  ⟨rfl, rfl⟩

/-- C1 amended: an exception raised by either flag evaluation propagates
unhandled past the handler (the flag calls sit outside the `try` block);
only once both flags have resolved is every later failure — prompt load,
rendering, parameter extraction, completion call — converted to an HTTP
error outcome, so nothing else escapes. -/
theorem C1_flag_errors_escape (env : Env) (dir : String) (req : ChatRequest) :
    (∀ e, env.flagBool = .error e → (chat env dir req).1 = .unhandled e)
    ∧ (∀ e, env.flagBool = .ok true → env.flagStr = .error e →
        (chat env dir req).1 = .unhandled e)
    ∧ (∀ b s, env.flagBool = .ok b → env.flagStr = .ok s →
        isHandled (chat env dir req).1 = true) := by
  refine ⟨?_, ?_, ?_⟩
  · intro e he
    simp [chat, he]
  · intro e hb hs
    simp [chat, hb, hs]
  · intro b s hb hs
    cases b with
    | false => simp [chat, hb, isHandled]
    | true =>
      cases hload : load_prompt env.fs env.parse s dir with
      | error e =>
        by_cases he : e = PyErr.fileNotFound <;>
          simp [chat, hb, hs, hload, he, isHandled]
      | ok prompt =>
        cases hr : render_messages prompt [("message", req.message)] with
        | error e => simp [chat, hb, hs, hload, hr, isHandled]
        | ok msgs =>
          cases hp : get_model_parameters prompt with
          | error e => simp [chat, hb, hs, hload, hr, hp, isHandled]
          | ok params =>
            cases ht : tempOf params with
            | error e => simp [chat, hb, hs, hload, hr, hp, ht, isHandled]
            | ok temp =>
              cases hc : env.completion msgs temp with
              | error e => simp [chat, hb, hs, hload, hr, hp, ht, hc, isHandled]
              | ok ans => simp [chat, hb, hs, hload, hr, hp, ht, hc, isHandled]

/-- C1 witness: a raising prompt-file flag escapes unhandled on a concrete
environment, while an environment whose flags both resolve produces a
handled outcome. -/
theorem C1_flag_errors_escape_witness :
    (chat envStrBoom "prompts" reqHi).1 = .unhandled (.other "boom")
    ∧ isHandled (chat envMissing "prompts" reqHi).1 = true :=
  ⟨(C1_flag_errors_escape envStrBoom "prompts" reqHi).2.1 (.other "boom") rfl rfl,
   (C1_flag_errors_escape envMissing "prompts" reqHi).2.2 true "expert" rfl rfl⟩

/-- Rendering a prompt built from an explicit message list just runs the
message loop. -/
theorem render_messages_mk (L : List Yaml) (vars : List (String × String)) :
    render_messages (.map [("messages", .list L)]) vars = renderList vars L := by
  simp [render_messages, dgetOpt]

/-- C5: for disjoint variable mappings whose placeholder tokens do not
collide, rendering with the first mapping and then rendering the resulting
messages with the second gives the same result as rendering once with the
union (the first mapping's entries followed by the second's, as Python
dict union orders them). -/
theorem C5_render_union (prompt : Yaml) (v1 v2 : List (String × String))
    (ms : List YDict)
    (hdisj : disjointKeys v1 v2 = true)
    (hcoll : noTokenCollision (v1 ++ v2) = true)
    (h1 : render_messages prompt v1 = .ok ms) :
    render_messages (.map [("messages", .list (ms.map Yaml.map))]) v2
      = render_messages prompt (v1 ++ v2) := by
  rw [render_messages_mk]
  cases prompt with
  | null => simp [render_messages] at h1
  | bool b => simp [render_messages] at h1
  | int n => simp [render_messages] at h1
  | float q => simp [render_messages] at h1
  | str s => simp [render_messages] at h1
  | list xs => simp [render_messages] at h1
  | map d =>
    simp only [render_messages] at h1 ⊢
    cases hv : (dgetOpt d "messages").getD (.list []) with
    | list msgs =>
      simp only [hv] at h1 ⊢
      exact renderList_comp v1 v2 msgs ms h1
    | str s =>
      simp only [hv] at h1 ⊢
      cases hs : s.isEmpty with
      | false => rw [hs] at h1; simp at h1
      | true =>
        rw [hs] at h1
        simp at h1
        subst h1
        simp [renderList]
    | map d2 =>
      simp only [hv] at h1 ⊢
      cases hs : d2.isEmpty with
      | false => rw [hs] at h1; simp at h1
      | true =>
        rw [hs] at h1
        simp at h1
        subst h1
        simp [renderList]
    | null => simp [hv] at h1
    | bool b => simp [hv] at h1
    | int n => simp [hv] at h1
    | float q => simp [hv] at h1

/-- C5 witness: on a one-message template with two placeholders, rendering
with `a := x` and then with `message := y` equals rendering once with both
variables. -/
theorem C5_render_union_witness :
    render_messages (.map [("messages", .list
        [.map [("role", Yaml.str "system"),
               ("content", Yaml.str "A x and \x7b\x7bmessage\x7d\x7d")]])])
        [("message", "y")]
      = render_messages (.map [("messages", .list
          [.map [("role", Yaml.str "system"),
                 ("content", Yaml.str "A \x7b\x7ba\x7d\x7d and \x7b\x7bmessage\x7d\x7d")]])])
          ([("a", "x")] ++ [("message", "y")]) :=
  C5_render_union
    (.map [("messages", .list
      [.map [("role", Yaml.str "system"),
             ("content", Yaml.str "A \x7b\x7ba\x7d\x7d and \x7b\x7bmessage\x7d\x7d")]])])
    [("a", "x")] [("message", "y")]
    [[("role", Yaml.str "system"), ("content", Yaml.str "A x and \x7b\x7bmessage\x7d\x7d")]]
    rfl rfl rfl

end GarageChat
